import Mathlib

/-!
Verification of the Clide core (safety classifier, execution engine,
confirmation orchestrator) against its natural-language specification.

The Python sources are shallowly embedded:
* pure functions become Lean functions over `String` / `List`;
* the compiled regular expressions of `src/safety.py` are embedded as a
  small regex AST `RE` together with a matcher implementing Python's
  `re.search` semantics under `re.IGNORECASE` (for the ASCII alphabet, the
  only alphabet the patterns use);
* the effectful retry loops of `src/executor.py` are embedded as functions
  over an oracle `Nat → Outcome` giving the outcome of each attempt, and
  wall-clock durations are threaded through an abstract `elapsed` oracle;
* the per-user pending-confirmation dictionary of `src/bot.py` is embedded
  as an `Option PendingConfirmation` slot for the user at hand (a Python
  `dict` holds at most one value per key, so the per-user multiplicity
  bound is structural).
-/

/-! Section: Python character and string helpers.

Here `pySpace` is Python's `str.strip` / `\s` whitespace over ASCII;
Python also strips some further Unicode spaces, which no pattern and no
claim touches.  `pyLower` is `str.lower` on ASCII. -/

def pySpace (c : Char) : Bool :=
  c = ' ' ∨ c = '\t' ∨ c = '\n' ∨ c = '\r' ∨ c = '\x0b' ∨ c = '\x0c'

def pyWordChar (c : Char) : Bool :=
  ('a' ≤ c ∧ c ≤ 'z') ∨ ('A' ≤ c ∧ c ≤ 'Z') ∨ ('0' ≤ c ∧ c ≤ '9') ∨ c = '_'

def pyLowerChar (c : Char) : Char :=
  if 'A' ≤ c ∧ c ≤ 'Z' then Char.ofNat (c.toNat + 32) else c

def pyStrip (s : String) : String :=
  ⟨((s.data.dropWhile pySpace).reverse.dropWhile pySpace).reverse⟩

def pyLower (s : String) : String :=
  ⟨s.data.map pyLowerChar⟩

/-- Python's `pat in s` substring test. -/
def pyContains (s pat : String) : Bool :=
  s.data.tails.any (fun t => pat.data.isPrefixOf t)

/-! Section: a regex AST covering the constructs used by `safety.py`.

Constructs appearing in `CRITICAL_PATTERNS` / `HIGH_RISK_PATTERNS`:
literal characters (case-insensitive under `re.IGNORECASE`), `.`,
`\s`, `\w`, the class `[a-z]`, the class `[06]`, grouping with `|`,
the quantifiers `*` `+` `?`, and the end anchor `$`.  All search inputs
are stripped strings, which never end in a newline, so `$` is exactly
end-of-input here. -/

inductive RE : Type
  | eps : RE
  | ch : Char → RE
  | anyc : RE
  | ws : RE
  | wd : RE
  | rng : Char → Char → RE
  | cat : RE → RE → RE
  | alt : RE → RE → RE
  | star : RE → RE
  | eos : RE

/-- Sugar: `X?` desugars to `(ε|X)`. -/
def RE.opt (r : RE) : RE := RE.alt RE.eps r

/-- Sugar: `X+` desugars to `X X*`. -/
def RE.pls (r : RE) : RE := RE.cat r (RE.star r)

/-- Sugar: a sequence of case-insensitive literal characters. -/
def RE.lit (s : String) : RE := s.data.foldr (fun c r => RE.cat (RE.ch c) r) RE.eps

/-- One-character classes: does `c` match under `re.IGNORECASE`?
Note `[a-z]` with `IGNORECASE` also matches the uppercase letters. -/
def RE.chMatch : RE → Char → Bool
  | RE.ch d, c => pyLowerChar c = pyLowerChar d
  | RE.anyc, c => ¬ c = '\n'
  | RE.ws, c => pySpace c
  | RE.wd, c => pyWordChar c
  | RE.rng lo hi, c => (lo ≤ c ∧ c ≤ hi) ∨ (lo ≤ pyLowerChar c ∧ pyLowerChar c ≤ hi)
  | _, _ => false

/-- Iteration of a star body: at each round the body may consume a
nonempty prefix (only strictly shorter remainders are kept, which
preserves the matched language), so `cs.length` rounds always suffice. -/
def starIter (f : List Char → List (List Char)) : Nat → List Char → List (List Char)
  | 0, cs => [cs]
  | n + 1, cs =>
    cs :: ((f cs).filter (fun cs' => cs'.length < cs.length)).flatMap
      (fun cs' => starIter f n cs')

/-- All suffixes left after the regex consumes a prefix of the input. -/
def RE.run : RE → List Char → List (List Char)
  | RE.eps, cs => [cs]
  | RE.ch d, cs =>
    match cs with
    | [] => []
    | c :: rest => if (RE.ch d).chMatch c then [rest] else []
  | RE.anyc, cs =>
    match cs with
    | [] => []
    | c :: rest => if RE.anyc.chMatch c then [rest] else []
  | RE.ws, cs =>
    match cs with
    | [] => []
    | c :: rest => if RE.ws.chMatch c then [rest] else []
  | RE.wd, cs =>
    match cs with
    | [] => []
    | c :: rest => if RE.wd.chMatch c then [rest] else []
  | RE.rng lo hi, cs =>
    match cs with
    | [] => []
    | c :: rest => if (RE.rng lo hi).chMatch c then [rest] else []
  | RE.cat a b, cs => (a.run cs).flatMap (fun cs' => b.run cs')
  | RE.alt a b, cs => a.run cs ++ b.run cs
  | RE.star a, cs => starIter (fun cs' => a.run cs') cs.length cs
  | RE.eos, cs => if cs.isEmpty then [cs] else []

/-- Python `re.search`: the pattern matches starting at some position. -/
def RE.searchB (r : RE) (s : String) : Bool :=
  s.data.tails.any (fun cs => ¬ (r.run cs).isEmpty)

/-- Concatenation of a sequence of regexes. -/
def RE.seq (l : List RE) : RE := l.foldr RE.cat RE.eps

/-! Section: the pattern tables of `src/safety.py`.

Each Lean term below embeds the regex literal of `Safety.CRITICAL_PATTERNS`
resp. `Safety.HIGH_RISK_PATTERNS`, in source order. -/

/-- Pattern `rm\s+(-rf?|--force|--recursive)?\s*/\s*$` -/
def critPat1 : RE := RE.seq [RE.lit "rm", RE.pls RE.ws,
  RE.opt (RE.alt (RE.cat (RE.lit "-r") (RE.opt (RE.ch 'f')))
    (RE.alt (RE.lit "--force") (RE.lit "--recursive"))),
  RE.star RE.ws, RE.ch '/', RE.star RE.ws, RE.eos]

/-- Pattern `dd\s+if=/dev/zero` -/
def critPat2 : RE := RE.seq [RE.lit "dd", RE.pls RE.ws, RE.lit "if=/dev/zero"]

/-- Pattern `mkfs\.*` (a literal `mkfs` followed by zero or more literal dots) -/
def critPat3 : RE := RE.cat (RE.lit "mkfs") (RE.star (RE.ch '.'))

/-- Pattern `:\(\)\{.*\|\:&\}\;\:` (the fork bomb) -/
def critPat4 : RE := RE.seq [RE.ch ':', RE.ch '(', RE.ch ')', RE.ch '{',
  RE.star RE.anyc, RE.ch '|', RE.ch ':', RE.ch '&', RE.ch '}', RE.ch ';', RE.ch ':']

/-- Pattern `chmod\s+(-R\s+)?777\s+/` -/
def critPat5 : RE := RE.seq [RE.lit "chmod", RE.pls RE.ws,
  RE.opt (RE.cat (RE.lit "-R") (RE.pls RE.ws)), RE.lit "777", RE.pls RE.ws, RE.ch '/']

/-- Pattern `>\s*/dev/sd[a-z]` -/
def critPat6 : RE := RE.seq [RE.ch '>', RE.star RE.ws, RE.lit "/dev/sd", RE.rng 'a' 'z']

/-- Pattern `fdisk.*--wipe` -/
def critPat7 : RE := RE.seq [RE.lit "fdisk", RE.star RE.anyc, RE.lit "--wipe"]

/-- Table `Safety.CRITICAL_PATTERNS`, in source order. -/
def CRITICAL_PATTERNS : List RE :=
  [critPat1, critPat2, critPat3, critPat4, critPat5, critPat6, critPat7]

/-- Pattern `rm\s+(-rf?|--force|--recursive)` -/
def hrPat1 : RE := RE.seq [RE.lit "rm", RE.pls RE.ws,
  RE.alt (RE.cat (RE.lit "-r") (RE.opt (RE.ch 'f')))
    (RE.alt (RE.lit "--force") (RE.lit "--recursive"))]

/-- Pattern `dd\s+` -/
def hrPat2 : RE := RE.cat (RE.lit "dd") (RE.pls RE.ws)

/-- Pattern `mkfs\.` -/
def hrPat3 : RE := RE.cat (RE.lit "mkfs") (RE.ch '.')

/-- Pattern `userdel\s+` -/
def hrPat4 : RE := RE.cat (RE.lit "userdel") (RE.pls RE.ws)

/-- Pattern `deluser\s+` -/
def hrPat5 : RE := RE.cat (RE.lit "deluser") (RE.pls RE.ws)

/-- Pattern `passwd\s+` -/
def hrPat6 : RE := RE.cat (RE.lit "passwd") (RE.pls RE.ws)

/-- Pattern `usermod\s+` -/
def hrPat7 : RE := RE.cat (RE.lit "usermod") (RE.pls RE.ws)

/-- Pattern `shutdown\s+` -/
def hrPat8 : RE := RE.cat (RE.lit "shutdown") (RE.pls RE.ws)

/-- Pattern `reboot` -/
def hrPat9 : RE := RE.lit "reboot"

/-- Pattern `halt` -/
def hrPat10 : RE := RE.lit "halt"

/-- Pattern `init\s+[06]` -/
def hrPat11 : RE := RE.seq [RE.lit "init", RE.pls RE.ws, RE.alt (RE.ch '0') (RE.ch '6')]

/-- Pattern `systemctl\s+(stop|disable|mask)` -/
def hrPat12 : RE := RE.seq [RE.lit "systemctl", RE.pls RE.ws,
  RE.alt (RE.lit "stop") (RE.alt (RE.lit "disable") (RE.lit "mask"))]

/-- Pattern `service\s+\w+\s+stop` -/
def hrPat13 : RE := RE.seq [RE.lit "service", RE.pls RE.ws, RE.pls RE.wd,
  RE.pls RE.ws, RE.lit "stop"]

/-- Pattern `kill\s+(-9\s+)?1\s*$` -/
def hrPat14 : RE := RE.seq [RE.lit "kill", RE.pls RE.ws,
  RE.opt (RE.cat (RE.lit "-9") (RE.pls RE.ws)), RE.ch '1', RE.star RE.ws, RE.eos]

/-- Pattern `iptables\s+-F` -/
def hrPat15 : RE := RE.seq [RE.lit "iptables", RE.pls RE.ws, RE.lit "-F"]

/-- Pattern `ufw\s+(disable|reset)` -/
def hrPat16 : RE := RE.seq [RE.lit "ufw", RE.pls RE.ws,
  RE.alt (RE.lit "disable") (RE.lit "reset")]

/-- Pattern `iptables.*DROP.*INPUT` -/
def hrPat17 : RE := RE.seq [RE.lit "iptables", RE.star RE.anyc, RE.lit "DROP",
  RE.star RE.anyc, RE.lit "INPUT"]

/-- Table `Safety.HIGH_RISK_PATTERNS`, in source order. -/
def HIGH_RISK_PATTERNS : List RE :=
  [hrPat1, hrPat2, hrPat3, hrPat4, hrPat5, hrPat6, hrPat7, hrPat8, hrPat9,
   hrPat10, hrPat11, hrPat12, hrPat13, hrPat14, hrPat15, hrPat16, hrPat17]

/-- Table `Safety.CONFIRMATION_COMMANDS`. -/
def CONFIRMATION_COMMANDS : List String :=
  ["rm", "dd", "mkfs", "fdisk", "parted",
   "userdel", "deluser", "usermod", "passwd",
   "shutdown", "reboot", "halt", "poweroff",
   "systemctl", "service",
   "iptables", "ufw", "firewall-cmd",
   "apt remove", "apt purge", "yum remove",
   "docker rm", "docker rmi"]

/-- Table `Safety.SAFE_COMMANDS`. -/
def SAFE_COMMANDS : List String :=
  ["ls", "cat", "less", "more", "head", "tail",
   "grep", "find", "locate", "which", "whereis",
   "ps", "top", "htop", "free", "df", "du",
   "netstat", "ss", "lsof", "ifconfig", "ip",
   "uptime", "whoami", "who", "w", "id",
   "date", "cal", "pwd", "echo",
   "systemctl status", "service status",
   "git status", "git log", "git diff"]

/-- Record `safety.SafetyResult`. -/
structure SafetyResult where
  is_safe : Bool
  requires_confirmation : Bool
  reason : String
  risk_level : String
deriving DecidableEq

/-- State built by `Safety.__init__`.  In the source, regexes arrive as
strings and are compiled; here patterns are already `RE` values, so
compilation is the identity.  Note that the source compiles
`compiled_critical` from the class constant `CRITICAL_PATTERNS`
(safety.py:104-107), not from the merged `self.blocked_patterns`. -/
structure Safety where
  safety_level : String
  blocked_patterns : List RE
  confirmation_commands : List String
  compiled_critical : List RE
  compiled_high_risk : List RE

/-- Constructor `Safety.__init__(blocked_patterns, requires_confirmation,
safety_level)`. -/
def Safety.init (blockedExt : List RE) (requiresConfExt : List String)
    (safety_level : String) : Safety :=
  { safety_level := safety_level
    blocked_patterns := CRITICAL_PATTERNS ++ blockedExt
    confirmation_commands := CONFIRMATION_COMMANDS ++ requiresConfExt
    compiled_critical := CRITICAL_PATTERNS
    compiled_high_risk := HIGH_RISK_PATTERNS }

/-- Check `Safety._is_safe_command`: exact allowlist match, or an
allowlisted command followed by a space. -/
def Safety.is_safe_command (command : String) : Bool :=
  SAFE_COMMANDS.any (fun safe_cmd =>
    command = safe_cmd ∨ (safe_cmd ++ " ").data.isPrefixOf command.data)

/-- Check `Safety.check_command`.  The source also computes `cmd_start`
(safety.py:155), which is never read afterwards; it is omitted. -/
def Safety.check_command (S : Safety) (command0 : String) : SafetyResult :=
  let command := pyStrip command0
  if command = "" then
    ⟨false, false, "Empty command", "low"⟩
  else if S.compiled_critical.any (fun p => p.searchB command) then
    ⟨false, false, "Blocked: Critical destructive pattern detected", "critical"⟩
  else if S.compiled_high_risk.any (fun p => p.searchB command) then
    ⟨true, true, "High risk operation detected", "high"⟩
  else if Safety.is_safe_command command then
    ⟨true, false, "Read-only safe command", "low"⟩
  else if S.safety_level = "high" then
    ⟨true, true, "High safety mode: confirmation required", "medium"⟩
  else if S.safety_level = "medium" ∧
      S.confirmation_commands.any (fun cmd => pyContains command cmd) then
    ⟨true, true, "Command requires confirmation", "medium"⟩
  else
    ⟨true, false, "Command passed safety checks", "low"⟩

/-- List `critical_paths` local to `Safety.check_file_operation`. -/
def critical_paths : List String :=
  ["/", "/boot", "/dev", "/proc", "/sys",
   "/etc/passwd", "/etc/shadow", "/etc/sudoers"]

/-- Check `Safety.check_file_operation(path, operation)`.  The source's
inner `for critical in critical_paths` loop returns on the first match;
the returned record does not depend on which member matched, so it is an
`any` here. -/
def Safety.check_file_operation (path0 : String) (operation : String) : SafetyResult :=
  let path := pyStrip path0
  if (operation = "write" ∨ operation = "delete") ∧
      critical_paths.any (fun critical =>
        path = critical ∨ (critical ++ "/").data.isPrefixOf path.data) then
    ⟨false, false,
      "Blocked: Cannot " ++ operation ++ " critical system path: " ++ path,
      "critical"⟩
  else if operation = "write" ∧ "/etc/".data.isPrefixOf path.data then
    ⟨true, true, "Modifying system configuration: " ++ path, "high"⟩
  else
    ⟨true, false, "File operation is safe", "low"⟩

/-- Loop of `Safety.sanitize_command`: quote state is tracked, and every
character is appended to the accumulator unchanged.  (The local
`dangerous_chars` list of the source is never consulted.) -/
def sanitizeLoop : List Char → Bool → Option Char → List Char → List Char
  | [], _, _, acc => acc.reverse
  | c :: rest, in_quotes, quote_char, acc =>
    if c = '"' ∨ c = '\'' then
      if ¬ in_quotes then sanitizeLoop rest true (some c) (c :: acc)
      else if some c = quote_char then sanitizeLoop rest false none (c :: acc)
      else sanitizeLoop rest in_quotes quote_char (c :: acc)
    else sanitizeLoop rest in_quotes quote_char (c :: acc)

/-- Method `Safety.sanitize_command`. -/
def Safety.sanitize_command (command : String) : String :=
  ⟨sanitizeLoop command.data false none []⟩

/-! Section: `src/executor.py`.

The retry loops interact with the outside world once per attempt.  Each
execution is embedded relative to an oracle `outcome : Nat → Outcome`
giving what attempt `k` (0-based; `k` equals the value of `retries` during
that attempt) observes, and an oracle `elapsed : Nat → Nat` giving the
wall-clock `time.time() - start_time` read when returning after attempt
`k`.  `duration` is abstract time units. -/

/-- Record `executor.ExecutionResult`. -/
structure ExecutionResult where
  success : Bool
  command : String
  stdout : String
  stderr : String
  return_code : Int
  duration : Nat
  retries : Nat
  error_message : String
deriving DecidableEq

/-- What one local attempt can observe: process completion with an exit
code, `subprocess.TimeoutExpired`, or any other exception `e` (whose
`str(e)` is the payload). -/
inductive LocalOutcome : Type
  | completed (stdout stderr : String) (return_code : Int)
  | timedOut
  | excn (msg : String)
deriving DecidableEq

/-- What one remote attempt can observe: remote completion with an exit
status, a `paramiko.SSHException` (connection, authentication or transport
error), or any other exception. -/
inductive RemoteOutcome : Type
  | completed (stdout stderr : String) (return_code : Int)
  | sshExc (msg : String)
  | excn (msg : String)
deriving DecidableEq

/-- Loop of `Executor._execute_local` (executor.py:107-194), entered with
the running `retries` counter. -/
def Executor.executeLocalLoop (max_retries timeout : Nat) (command : String)
    (retry_on_failure : Bool) (outcome : Nat → LocalOutcome) (elapsed : Nat → Nat)
    (retries : Nat) : ExecutionResult :=
  if retries ≤ (if retry_on_failure then max_retries else 0) then
    match outcome retries with
    | .completed stdout stderr return_code =>
      if return_code = 0 then
        ⟨true, command, stdout, stderr, return_code, elapsed retries, retries, ""⟩
      else if h : retry_on_failure = true ∧ retries < max_retries then
        Executor.executeLocalLoop max_retries timeout command retry_on_failure
          outcome elapsed (retries + 1)
      else
        ⟨false, command, stdout, stderr, return_code, elapsed retries, retries,
          "Command failed with exit code " ++ toString return_code⟩
    | .timedOut =>
      ⟨false, command, "", "", -1, elapsed retries, retries,
        "Command timed out after " ++ toString timeout ++ "s"⟩
    | .excn msg =>
      ⟨false, command, "", msg, -1, elapsed retries, retries,
        "Execution error: " ++ msg⟩
  else
    ⟨false, command, "", "", -1, elapsed retries, retries, "Max retries exceeded"⟩
termination_by max_retries + 1 - retries
decreasing_by omega

/-- Method `Executor._execute_local`. -/
def Executor.execute_local (max_retries timeout : Nat) (command : String)
    (retry_on_failure : Bool) (outcome : Nat → LocalOutcome) (elapsed : Nat → Nat) :
    ExecutionResult :=
  Executor.executeLocalLoop max_retries timeout command retry_on_failure outcome elapsed 0

/-- Loop of `Executor._execute_remote` (executor.py:219-330).  A raised
`paramiko.SSHException` or any other exception returns immediately from
inside the loop body (executor.py:289-313); only a nonzero exit status
reaches the retry branch. -/
def Executor.executeRemoteLoop (max_retries timeout : Nat) (command : String)
    (retry_on_failure : Bool) (outcome : Nat → RemoteOutcome) (elapsed : Nat → Nat)
    (retries : Nat) : ExecutionResult :=
  if retries ≤ (if retry_on_failure then max_retries else 0) then
    match outcome retries with
    | .completed stdout stderr return_code =>
      if return_code = 0 then
        ⟨true, command, stdout, stderr, return_code, elapsed retries, retries, ""⟩
      else if h : retry_on_failure = true ∧ retries < max_retries then
        Executor.executeRemoteLoop max_retries timeout command retry_on_failure
          outcome elapsed (retries + 1)
      else
        ⟨false, command, stdout, stderr, return_code, elapsed retries, retries,
          "Command failed with exit code " ++ toString return_code⟩
    | .sshExc msg =>
      ⟨false, command, "", msg, -1, elapsed retries, retries,
        "SSH error: " ++ msg⟩
    | .excn msg =>
      ⟨false, command, "", msg, -1, elapsed retries, retries,
        "Execution error: " ++ msg⟩
  else
    ⟨false, command, "", "", -1, elapsed retries, retries, "Max retries exceeded"⟩
termination_by max_retries + 1 - retries
decreasing_by omega

/-- Method `Executor._execute_remote`. -/
def Executor.execute_remote (max_retries timeout : Nat) (command : String)
    (retry_on_failure : Bool) (outcome : Nat → RemoteOutcome) (elapsed : Nat → Nat) :
    ExecutionResult :=
  Executor.executeRemoteLoop max_retries timeout command retry_on_failure outcome elapsed 0

/-- Loop `for command in commands` of `Executor.execute_batch`
(executor.py:351-361).  The call `self.execute(command, vps, ssh_config)`
is abstracted as `execOne i command`, the result of the `i`-th execution
of the batch; `break` after a failure becomes returning the singleton. -/
def Executor.executeBatchLoop (execOne : Nat → String → ExecutionResult)
    (stop_on_error : Bool) : Nat → List String → List ExecutionResult
  | _, [] => []
  | i, command :: rest =>
    let result := execOne i command
    if ¬ result.success ∧ stop_on_error then [result]
    else result :: Executor.executeBatchLoop execOne stop_on_error (i + 1) rest

/-- Method `Executor.execute_batch`. -/
def Executor.execute_batch (execOne : Nat → String → ExecutionResult)
    (stop_on_error : Bool) (commands : List String) : List ExecutionResult :=
  Executor.executeBatchLoop execOne stop_on_error 0 commands

/-- Position of the first command in the batch whose execution result has
`success = false` (counting from start index `i`). -/
def firstFailureIdx (execOne : Nat → String → ExecutionResult) :
    Nat → List String → Option Nat
  | _, [] => none
  | i, command :: rest =>
    if (execOne i command).success then firstFailureIdx execOne (i + 1) rest
    else some i

/-! Section: confirmation handling in `src/bot.py`.

`ClideBot.pending_confirmations` is a dict keyed by user; the slot of the
user at hand is an `Option PendingConfirmation` (a dict holds at most one
value per key).  `ClideBot._execute_commands` touches the slot only when a
command fails and `brain.suggest_fix` returns a fix (bot.py:304-321); the
brain call is the oracle `suggest_fix`, and `time.time()` at the moment
the fix entry is stored is the oracle value `now`. -/

/-- One entry of `ClideBot.pending_confirmations`: the dict
`{'commands': ..., 'context': ..., 'timestamp': ...}`.  The `ai_context`
dict is opaque to all claims and is carried as an abstract `context`. -/
structure PendingConfirmation where
  commands : List String
  context : String
  timestamp : Nat
deriving DecidableEq

/-- Affirmative tokens of `ClideBot._handle_confirmation` (bot.py:224). -/
def AFFIRMATIVE_RESPONSES : List String := ["yes", "y", "confirm", "proceed"]

/-- Negative tokens of `ClideBot._handle_confirmation` (bot.py:233). -/
def NEGATIVE_RESPONSES : List String := ["no", "n", "cancel", "abort"]

/-- Message kind `_handle_confirmation` sends on each branch. -/
inductive BotReply : Type
  | executing
  | cancelled
  | reprompt
deriving DecidableEq

/-- Effect of the command loop of `ClideBot._execute_commands` on the
user's pending slot: commands run in order; on the first failure,
`brain.suggest_fix(cmd, result.stderr or result.error_message)` is
consulted and, if it returns a fix, a fresh one-command pending entry is
stored; otherwise (and when every command succeeds) the slot is left
empty.  `execOne i cmd` abstracts `self.executor.execute(cmd, ...)` for
the `i`-th command (0-based). -/
def ClideBot.executeCommandsPending (execOne : Nat → String → ExecutionResult)
    (suggest_fix : String → String → Option String) (now : Nat) (ctx : String) :
    Nat → List String → Option PendingConfirmation
  | _, [] => none
  | i, cmd :: rest =>
    let result := execOne i cmd
    if result.success then
      ClideBot.executeCommandsPending execOne suggest_fix now ctx (i + 1) rest
    else
      match suggest_fix cmd
          (if result.stderr = "" then result.error_message else result.stderr) with
      | some fix => some ⟨[fix], ctx, now⟩
      | none => none

/-- Handler `ClideBot._handle_confirmation` (bot.py:215-244), as a
transition on the user's pending slot.  The returned slot is the state of
`pending_confirmations[user_id]` after the handler (including the effect
of `_execute_commands` on the affirmative branch). -/
def ClideBot.handle_confirmation (execOne : Nat → String → ExecutionResult)
    (suggest_fix : String → String → Option String) (now : Nat)
    (pending : PendingConfirmation) (response : String) :
    Option PendingConfirmation × BotReply :=
  let response_lower := pyStrip (pyLower response)
  if response_lower ∈ AFFIRMATIVE_RESPONSES then
    (ClideBot.executeCommandsPending execOne suggest_fix now pending.context
      0 pending.commands, .executing)
  else if response_lower ∈ NEGATIVE_RESPONSES then
    (none, .cancelled)
  else
    (some pending, .reprompt)

/-! Section: concrete oracles used by witnesses and counterexamples. -/

/-- Oracle where attempt 0 raises `paramiko.SSHException` and attempt 1
would succeed. -/
def c4oracle : Nat → RemoteOutcome := fun k =>
  if k = 0 then RemoteOutcome.sshExc "Authentication failed"
  else RemoteOutcome.completed "ok" "" 0

/-- Oracle where attempt 0 exits nonzero and attempt 1 raises
`paramiko.SSHException`. -/
def c4worac : Nat → RemoteOutcome := fun k =>
  if k = 0 then RemoteOutcome.completed "" "err" 1 else RemoteOutcome.sshExc "conn reset"

/-- Oracle where attempts 0 and 1 exit nonzero and attempt 2 succeeds. -/
def c5worac : Nat → LocalOutcome := fun k =>
  if k < 2 then LocalOutcome.completed "" "make error" 1
  else LocalOutcome.completed "done" "" 0

/-- Oracle where every remote attempt succeeds. -/
def c5wremote : Nat → RemoteOutcome := fun _ => RemoteOutcome.completed "" "" 0

/-- Batch oracle where exactly the command `"b"` fails. -/
def c6exec : Nat → String → ExecutionResult := fun _ c =>
  if c = "b" then ⟨false, c, "", "boom", 1, 0, 0, "Command failed with exit code 1"⟩
  else ⟨true, c, "out", "", 0, 0, 0, ""⟩

/-- Oracle where every attempt times out. -/
def c7worac : Nat → LocalOutcome := fun _ => LocalOutcome.timedOut

/-- Execution oracle where every command succeeds. -/
def c8exec : Nat → String → ExecutionResult := fun _ c => ⟨true, c, "", "", 0, 0, 0, ""⟩

/-- Brain oracle that never suggests a fix. -/
def c8fix : String → String → Option String := fun _ _ => none

/-! Section: theorems. -/

/-- Helper: the copying loop of `sanitize_command` appends every input
character to the accumulator. -/
lemma sanitizeLoop_eq (cs : List Char) :
    ∀ in_quotes quote_char acc,
      sanitizeLoop cs in_quotes quote_char acc = acc.reverse ++ cs := by
  induction cs with
  | nil => intro inq qc acc; simp [sanitizeLoop]
  | cons c rest ih =>
    intro inq qc acc
    simp only [sanitizeLoop]
    split_ifs <;> rw [ih] <;> simp

/-- C9: `sanitize_command` is the identity: the quote-tracking loop
appends every character unchanged, so the returned string equals the
input character for character. -/
theorem sanitize_command_id (command : String) :
    Safety.sanitize_command command = command := by
  cases command
  simp [Safety.sanitize_command, sanitizeLoop_eq]

/-- C10: `check_file_operation` with `operation = "read"` never blocks and
never requires confirmation: for every path (critical system paths such as
`/etc/shadow` included) it returns `is_safe = true`,
`requires_confirmation = false`; the critical-path block only guards the
`"write"` and `"delete"` operations. -/
theorem check_file_operation_read_allows (path : String) :
    Safety.check_file_operation path "read" =
      ⟨true, false, "File operation is safe", "low"⟩ := by
  have h1 : ¬ (("read" = "write" ∨ "read" = "delete") ∧
      critical_paths.any (fun critical =>
        pyStrip path = critical ∨ (critical ++ "/").data.isPrefixOf (pyStrip path).data)) := by
    rintro ⟨h | h, -⟩ <;> simp at h
  have h2 : ¬ (("read" : String) = "write" ∧
      "/etc/".data.isPrefixOf (pyStrip path).data) := by
    rintro ⟨h, -⟩; simp at h
  simp only [Safety.check_file_operation]
  rw [if_neg h1, if_neg h2]

/-- C1: any command whose stripped form matches a built-in critical
pattern is rejected by `check_command` with `is_safe = false`,
`requires_confirmation = false`, `risk_level = "critical"`, whatever the
configured safety level and extension lists (the critical check runs
before every policy-level branch).  Stripping is what `check_command`
itself does first; a critical pattern can never match the empty string,
so the empty-command branch is unreachable under the hypothesis. -/
theorem check_command_critical_blocks (blockedExt : List RE)
    (requiresConfExt : List String) (safety_level : String) (command : String)
    (h : CRITICAL_PATTERNS.any (fun p => p.searchB (pyStrip command)) = true) :
    (Safety.init blockedExt requiresConfExt safety_level).check_command command =
      ⟨false, false, "Blocked: Critical destructive pattern detected", "critical"⟩ := by
  have hne : ¬ (pyStrip command = "") := by
    intro he
    rw [he] at h
    exact absurd h (by decide)
  simp only [Safety.check_command, Safety.init]
  rw [if_neg hne, if_pos h]

/-- C1 witness: `"rm -rf /"` is critical-blocked under the default
policy (`safety_level = "medium"`, no extensions). -/
theorem check_command_critical_blocks_witness :
    CRITICAL_PATTERNS.any (fun p => p.searchB (pyStrip "rm -rf /")) = true ∧
    (Safety.init [] [] "medium").check_command "rm -rf /" =
      ⟨false, false, "Blocked: Critical destructive pattern detected", "critical"⟩ :=
  ⟨by decide, check_command_critical_blocks [] [] "medium" "rm -rf /" (by decide)⟩

/-- C2: the caller-supplied extension `RE.lit "zzqdanger"` is merged into
`blocked_patterns`, and the command `"zzqdanger"` matches it, yet
`check_command` allows the command: `__init__` compiles
`compiled_critical` from the class constant `CRITICAL_PATTERNS` only
(safety.py:104-107), so extension patterns never take part in any
matching step, contradicting the constructor's own docstring
("Additional patterns to block"). -/
theorem blocked_pattern_extension_ignored :
    RE.searchB (RE.lit "zzqdanger") (pyStrip "zzqdanger") = true ∧
    RE.lit "zzqdanger" ∈ (Safety.init [RE.lit "zzqdanger"] [] "low").blocked_patterns ∧
    (Safety.init [RE.lit "zzqdanger"] [] "low").check_command "zzqdanger" =
      ⟨true, false, "Command passed safety checks", "low"⟩ :=
  ⟨by decide, by simp [Safety.init], by decide⟩

/-- C3 counterexample: `"echo reboot"` begins with the allowlisted prefix
`"echo"` followed by a space, yet `check_command` (here under the default
`"medium"` level) returns `requires_confirmation = true`, because the
high-risk pattern `reboot` is tested before the safe allowlist. -/
theorem safe_allowlist_counterexample :
    Safety.is_safe_command "echo reboot" = true ∧
    ((Safety.init [] [] "medium").check_command "echo reboot").requires_confirmation
      = true := by
  exact ⟨by decide, by decide⟩

/-- C3 (amended): a command whose stripped form matches no critical and no
high-risk pattern and is an exact allowlist member or begins with an
allowlisted prefix followed by a space gets `is_safe = true`,
`requires_confirmation = false`, `risk_level = "low"` from
`check_command`, for every configured safety level and extension lists. -/
theorem check_command_safe_allowlist (blockedExt : List RE)
    (requiresConfExt : List String) (safety_level : String) (command : String)
    (hc : CRITICAL_PATTERNS.any (fun p => p.searchB (pyStrip command)) = false)
    (hh : HIGH_RISK_PATTERNS.any (fun p => p.searchB (pyStrip command)) = false)
    (hs : Safety.is_safe_command (pyStrip command) = true) :
    (Safety.init blockedExt requiresConfExt safety_level).check_command command =
      ⟨true, false, "Read-only safe command", "low"⟩ := by
  have hne : ¬ (pyStrip command = "") := by
    intro he
    rw [he] at hs
    exact absurd hs (by decide)
  simp only [Safety.check_command, Safety.init]
  rw [if_neg hne, if_neg (by simp [hc]), if_neg (by simp [hh]), if_pos hs]

/-- C3 witness: `"ls -la /var/log"` is allowlist-prefixed, matches no
dangerous pattern, and is allowed without confirmation even under
`safety_level = "high"`. -/
theorem check_command_safe_allowlist_witness :
    CRITICAL_PATTERNS.any (fun p => p.searchB (pyStrip "ls -la /var/log")) = false ∧
    HIGH_RISK_PATTERNS.any (fun p => p.searchB (pyStrip "ls -la /var/log")) = false ∧
    Safety.is_safe_command (pyStrip "ls -la /var/log") = true ∧
    (Safety.init [] [] "high").check_command "ls -la /var/log" =
      ⟨true, false, "Read-only safe command", "low"⟩ :=
  ⟨by decide, by decide, by decide,
    check_command_safe_allowlist [] [] "high" "ls -la /var/log"
      (by decide) (by decide) (by decide)⟩

/-- Helper: the local retry loop never reports more retries than the
configured maximum (fuel-indexed induction on the remaining budget). -/
lemma executeLocalLoop_retries_le (mR t : Nat) (cmd : String) (rof : Bool)
    (oc : Nat → LocalOutcome) (el : Nat → Nat) :
    ∀ fuel r, mR - r ≤ fuel → r ≤ mR →
      (Executor.executeLocalLoop mR t cmd rof oc el r).retries ≤ mR := by
  intro fuel
  induction fuel with
  | zero =>
    intro r hf hr
    rw [Executor.executeLocalLoop]
    rcases hoc : oc r with ⟨o, e, rc⟩ | _ | msg <;> simp only [hoc] <;> split_ifs <;>
      first
      | exact hr
      | exact absurd (‹rof = true ∧ r < mR›).2 (by omega)
  | succ n ih =>
    intro r hf hr
    rw [Executor.executeLocalLoop]
    rcases hoc : oc r with ⟨o, e, rc⟩ | _ | msg <;> simp only [hoc] <;> split_ifs <;>
      first
      | exact hr
      | (rename_i hcond; exact ih (r + 1) (by omega) (by omega))

/-- Helper: the remote retry loop never reports more retries than the
configured maximum. -/
lemma executeRemoteLoop_retries_le (mR t : Nat) (cmd : String) (rof : Bool)
    (oc : Nat → RemoteOutcome) (el : Nat → Nat) :
    ∀ fuel r, mR - r ≤ fuel → r ≤ mR →
      (Executor.executeRemoteLoop mR t cmd rof oc el r).retries ≤ mR := by
  intro fuel
  induction fuel with
  | zero =>
    intro r hf hr
    rw [Executor.executeRemoteLoop]
    rcases hoc : oc r with ⟨o, e, rc⟩ | msg | msg <;> simp only [hoc] <;> split_ifs <;>
      first
      | exact hr
      | exact absurd (‹rof = true ∧ r < mR›).2 (by omega)
  | succ n ih =>
    intro r hf hr
    rw [Executor.executeRemoteLoop]
    rcases hoc : oc r with ⟨o, e, rc⟩ | msg | msg <;> simp only [hoc] <;> split_ifs <;>
      first
      | exact hr
      | (rename_i hcond; exact ih (r + 1) (by omega) (by omega))

/-- Helper: if attempts before `n` exit nonzero and attempt `n` exits
zero, the local loop returns the success result of attempt `n`. -/
lemma executeLocalLoop_first_success (mR t : Nat) (cmd : String) (rof : Bool)
    (oc : Nat → LocalOutcome) (el : Nat → Nat) (n : Nat) (o e : String)
    (hn : n ≤ if rof = true then mR else 0)
    (hfail : ∀ k, k < n → ∃ o' e' rc, oc k = LocalOutcome.completed o' e' rc ∧ ¬ rc = 0)
    (hsucc : oc n = LocalOutcome.completed o e 0) :
    ∀ fuel r, n - r ≤ fuel → r ≤ n →
      Executor.executeLocalLoop mR t cmd rof oc el r =
        ⟨true, cmd, o, e, 0, el n, n, ""⟩ := by
  have hbudget : ∀ r, r ≤ n → r ≤ (if rof = true then mR else 0) :=
    fun r hr => le_trans hr hn
  intro fuel
  induction fuel with
  | zero =>
    intro r hf hr
    have hrn : r = n := by omega
    subst hrn
    rw [Executor.executeLocalLoop, if_pos (hbudget _ le_rfl)]
    simp [hsucc]
  | succ m ih =>
    intro r hf hr
    rcases Nat.lt_or_ge r n with hlt | hge
    · obtain ⟨o', e', rc, hoc, hrc⟩ := hfail r hlt
      have hrof : rof = true := by
        by_contra hb
        simp only [Bool.not_eq_true] at hb
        rw [hb] at hn
        simp at hn
        omega
      have hrm : r < mR := by
        rw [hrof] at hn
        simp at hn
        omega
      rw [Executor.executeLocalLoop, if_pos (hbudget _ (by omega))]
      simp only [hoc]
      rw [if_neg hrc, dif_pos ⟨hrof, hrm⟩]
      exact ih (r + 1) (by omega) (by omega)
    · have hrn : r = n := by omega
      subst hrn
      rw [Executor.executeLocalLoop, if_pos (hbudget _ le_rfl)]
      simp [hsucc]

/-- Helper: if attempts before `n` exit nonzero and attempt `n` times
out, the local loop returns the timeout result of attempt `n`
immediately. -/
lemma executeLocalLoop_timeout (mR t : Nat) (cmd : String) (rof : Bool)
    (oc : Nat → LocalOutcome) (el : Nat → Nat) (n : Nat)
    (hn : n ≤ if rof = true then mR else 0)
    (hfail : ∀ k, k < n → ∃ o' e' rc, oc k = LocalOutcome.completed o' e' rc ∧ ¬ rc = 0)
    (htime : oc n = LocalOutcome.timedOut) :
    ∀ fuel r, n - r ≤ fuel → r ≤ n →
      Executor.executeLocalLoop mR t cmd rof oc el r =
        ⟨false, cmd, "", "", -1, el n, n,
          "Command timed out after " ++ toString t ++ "s"⟩ := by
  have hbudget : ∀ r, r ≤ n → r ≤ (if rof = true then mR else 0) :=
    fun r hr => le_trans hr hn
  intro fuel
  induction fuel with
  | zero =>
    intro r hf hr
    have hrn : r = n := by omega
    subst hrn
    rw [Executor.executeLocalLoop, if_pos (hbudget _ le_rfl)]
    simp [htime]
  | succ m ih =>
    intro r hf hr
    rcases Nat.lt_or_ge r n with hlt | hge
    · obtain ⟨o', e', rc, hoc, hrc⟩ := hfail r hlt
      have hrof : rof = true := by
        by_contra hb
        simp only [Bool.not_eq_true] at hb
        rw [hb] at hn
        simp at hn
        omega
      have hrm : r < mR := by
        rw [hrof] at hn
        simp at hn
        omega
      rw [Executor.executeLocalLoop, if_pos (hbudget _ (by omega))]
      simp only [hoc]
      rw [if_neg hrc, dif_pos ⟨hrof, hrm⟩]
      exact ih (r + 1) (by omega) (by omega)
    · have hrn : r = n := by omega
      subst hrn
      rw [Executor.executeLocalLoop, if_pos (hbudget _ le_rfl)]
      simp [htime]

/-- Helper: if attempts before `n` exit nonzero and attempt `n` exits
zero, the remote loop returns the success result of attempt `n`. -/
lemma executeRemoteLoop_first_success (mR t : Nat) (cmd : String) (rof : Bool)
    (oc : Nat → RemoteOutcome) (el : Nat → Nat) (n : Nat) (o e : String)
    (hn : n ≤ if rof = true then mR else 0)
    (hfail : ∀ k, k < n → ∃ o' e' rc, oc k = RemoteOutcome.completed o' e' rc ∧ ¬ rc = 0)
    (hsucc : oc n = RemoteOutcome.completed o e 0) :
    ∀ fuel r, n - r ≤ fuel → r ≤ n →
      Executor.executeRemoteLoop mR t cmd rof oc el r =
        ⟨true, cmd, o, e, 0, el n, n, ""⟩ := by
  have hbudget : ∀ r, r ≤ n → r ≤ (if rof = true then mR else 0) :=
    fun r hr => le_trans hr hn
  intro fuel
  induction fuel with
  | zero =>
    intro r hf hr
    have hrn : r = n := by omega
    subst hrn
    rw [Executor.executeRemoteLoop, if_pos (hbudget _ le_rfl)]
    simp [hsucc]
  | succ m ih =>
    intro r hf hr
    rcases Nat.lt_or_ge r n with hlt | hge
    · obtain ⟨o', e', rc, hoc, hrc⟩ := hfail r hlt
      have hrof : rof = true := by
        by_contra hb
        simp only [Bool.not_eq_true] at hb
        rw [hb] at hn
        simp at hn
        omega
      have hrm : r < mR := by
        rw [hrof] at hn
        simp at hn
        omega
      rw [Executor.executeRemoteLoop, if_pos (hbudget _ (by omega))]
      simp only [hoc]
      rw [if_neg hrc, dif_pos ⟨hrof, hrm⟩]
      exact ih (r + 1) (by omega) (by omega)
    · have hrn : r = n := by omega
      subst hrn
      rw [Executor.executeRemoteLoop, if_pos (hbudget _ le_rfl)]
      simp [hsucc]

/-- Helper: if attempts before `n` exit nonzero and attempt `n` raises a
`paramiko.SSHException`, the remote loop returns the SSH-error result of
attempt `n` immediately. -/
lemma executeRemoteLoop_sshExc (mR t : Nat) (cmd : String) (rof : Bool)
    (oc : Nat → RemoteOutcome) (el : Nat → Nat) (n : Nat) (msg : String)
    (hn : n ≤ if rof = true then mR else 0)
    (hfail : ∀ k, k < n → ∃ o' e' rc, oc k = RemoteOutcome.completed o' e' rc ∧ ¬ rc = 0)
    (hexc : oc n = RemoteOutcome.sshExc msg) :
    ∀ fuel r, n - r ≤ fuel → r ≤ n →
      Executor.executeRemoteLoop mR t cmd rof oc el r =
        ⟨false, cmd, "", msg, -1, el n, n, "SSH error: " ++ msg⟩ := by
  have hbudget : ∀ r, r ≤ n → r ≤ (if rof = true then mR else 0) :=
    fun r hr => le_trans hr hn
  intro fuel
  induction fuel with
  | zero =>
    intro r hf hr
    have hrn : r = n := by omega
    subst hrn
    rw [Executor.executeRemoteLoop, if_pos (hbudget _ le_rfl)]
    simp [hexc]
  | succ m ih =>
    intro r hf hr
    rcases Nat.lt_or_ge r n with hlt | hge
    · obtain ⟨o', e', rc, hoc, hrc⟩ := hfail r hlt
      have hrof : rof = true := by
        by_contra hb
        simp only [Bool.not_eq_true] at hb
        rw [hb] at hn
        simp at hn
        omega
      have hrm : r < mR := by
        rw [hrof] at hn
        simp at hn
        omega
      rw [Executor.executeRemoteLoop, if_pos (hbudget _ (by omega))]
      simp only [hoc]
      rw [if_neg hrc, dif_pos ⟨hrof, hrm⟩]
      exact ih (r + 1) (by omega) (by omega)
    · have hrn : r = n := by omega
      subst hrn
      rw [Executor.executeRemoteLoop, if_pos (hbudget _ le_rfl)]
      simp [hexc]

/-- C4 counterexample: with `max_retries = 3` and retries enabled, an SSH
(connection/authentication/transport) error on attempt 0 is NOT retried:
the failure result is returned at once with `retries = 0`, although
attempt 1 — which the oracle says would have succeeded — was still inside
the retry budget.  The `except paramiko.SSHException` branch
(executor.py:289-300) returns instead of continuing the loop. -/
theorem remote_ssh_error_not_retried :
    Executor.execute_remote 3 300 "uptime" true c4oracle (fun _ => 1) =
      ⟨false, "uptime", "", "Authentication failed", -1, 1, 0,
        "SSH error: Authentication failed"⟩ ∧
    c4oracle 1 = RemoteOutcome.completed "ok" "" 0 := by
  constructor
  · rw [Executor.execute_remote, Executor.executeRemoteLoop]
    norm_num [c4oracle]
    decide
  · rfl

/-- C4 (amended): a connection, authentication, or transport-level error
(`paramiko.SSHException`) on a remote attempt is terminal: after any
number `n` of nonzero-exit attempts, an SSH error on attempt `n` makes
`_execute_remote` return that failure immediately with `retries = n`, no
matter how much retry budget remains. -/
theorem remote_connection_error_terminal (mR t : Nat) (cmd : String)
    (oc : Nat → RemoteOutcome) (el : Nat → Nat) (n : Nat) (msg : String)
    (hn : n ≤ mR)
    (hfail : ∀ k, k < n → ∃ o e rc, oc k = RemoteOutcome.completed o e rc ∧ ¬ rc = 0)
    (hexc : oc n = RemoteOutcome.sshExc msg) :
    Executor.execute_remote mR t cmd true oc el =
      ⟨false, cmd, "", msg, -1, el n, n, "SSH error: " ++ msg⟩ :=
  executeRemoteLoop_sshExc mR t cmd true oc el n msg (by simpa using hn) hfail hexc
    n 0 (by omega) (by omega)

/-- C4 witness: one nonzero exit, then an SSH error on attempt 1 — the
returned result is the SSH failure of attempt 1 with `retries = 1`. -/
theorem remote_connection_error_terminal_witness :
    Executor.execute_remote 3 300 "uptime" true c4worac (fun k => k) =
      ⟨false, "uptime", "", "conn reset", -1, 1, 1, "SSH error: conn reset"⟩ :=
  remote_connection_error_terminal 3 300 "uptime" c4worac (fun k => k) 1 "conn reset"
    (by omega)
    (fun k hk => ⟨"", "err", 1, by
      have hk0 : k = 0 := by omega
      subst hk0
      rfl, by decide⟩)
    rfl

/-- C5: every execution result (local and remote) reports
`retries ≤ max_retries`; and when the first `n` attempts exit nonzero and
attempt `n` (0-based, so the `(n+1)`-st attempt) exits zero, the reported
`retries` equals `n`. -/
theorem execution_retries_invariant (mR t : Nat) (cmd : String) (rof : Bool)
    (ocL : Nat → LocalOutcome) (ocR : Nat → RemoteOutcome) (elL elR : Nat → Nat) :
    (Executor.execute_local mR t cmd rof ocL elL).retries ≤ mR ∧
    (Executor.execute_remote mR t cmd rof ocR elR).retries ≤ mR ∧
    (∀ n o e, n ≤ (if rof = true then mR else 0) →
      (∀ k, k < n → ∃ o' e' rc, ocL k = LocalOutcome.completed o' e' rc ∧ ¬ rc = 0) →
      ocL n = LocalOutcome.completed o e 0 →
      (Executor.execute_local mR t cmd rof ocL elL).retries = n) ∧
    (∀ n o e, n ≤ (if rof = true then mR else 0) →
      (∀ k, k < n → ∃ o' e' rc, ocR k = RemoteOutcome.completed o' e' rc ∧ ¬ rc = 0) →
      ocR n = RemoteOutcome.completed o e 0 →
      (Executor.execute_remote mR t cmd rof ocR elR).retries = n) := by
  refine ⟨?_, ?_, ?_, ?_⟩
  · exact executeLocalLoop_retries_le mR t cmd rof ocL elL mR 0 (by omega) (by omega)
  · exact executeRemoteLoop_retries_le mR t cmd rof ocR elR mR 0 (by omega) (by omega)
  · intro n o e hn hfail hsucc
    rw [Executor.execute_local,
      executeLocalLoop_first_success mR t cmd rof ocL elL n o e hn hfail hsucc
        n 0 (by omega) (by omega)]
  · intro n o e hn hfail hsucc
    rw [Executor.execute_remote,
      executeRemoteLoop_first_success mR t cmd rof ocR elR n o e hn hfail hsucc
        n 0 (by omega) (by omega)]

/-- C5 witness: two nonzero exits, success on attempt 2, `max_retries = 3`:
the result reports `retries = 2 ≤ 3`. -/
theorem execution_retries_invariant_witness :
    (Executor.execute_local 3 300 "make" true c5worac (fun k => k)).retries ≤ 3 ∧
    (Executor.execute_local 3 300 "make" true c5worac (fun k => k)).retries = 2 := by
  refine ⟨(execution_retries_invariant 3 300 "make" true c5worac c5wremote
    (fun k => k) (fun k => k)).1, ?_⟩
  refine (execution_retries_invariant 3 300 "make" true c5worac c5wremote
    (fun k => k) (fun k => k)).2.2.1 2 "done" "" (by decide) ?_ (by rfl)
  intro k hk
  exact ⟨"", "make error", 1, by simp [c5worac, hk], by decide⟩

/-- Helper: characterisation of the batch loop with `stop_on_error`:
its length is governed by the first failing index, and its `k`-th entry
is the result of the `k`-th command. -/
lemma executeBatchLoop_stop_spec (execOne : Nat → String → ExecutionResult) :
    ∀ (cmds : List String) (i : Nat),
      (∀ j, firstFailureIdx execOne i cmds = some j →
        (Executor.executeBatchLoop execOne true i cmds).length + i = j + 1) ∧
      (firstFailureIdx execOne i cmds = none →
        (Executor.executeBatchLoop execOne true i cmds).length = cmds.length) ∧
      (∀ k, k < (Executor.executeBatchLoop execOne true i cmds).length →
        (Executor.executeBatchLoop execOne true i cmds)[k]? =
          (cmds[k]?).map (fun c => execOne (i + k) c)) := by
  intro cmds
  induction cmds with
  | nil =>
    intro i
    refine ⟨?_, ?_, ?_⟩
    · intro j hj
      simp [firstFailureIdx] at hj
    · intro _
      simp [Executor.executeBatchLoop]
    · intro k hk
      simp [Executor.executeBatchLoop] at hk
  | cons c rest ih =>
    intro i
    by_cases hs : (execOne i c).success = true
    · have hloop : Executor.executeBatchLoop execOne true i (c :: rest) =
          execOne i c :: Executor.executeBatchLoop execOne true (i + 1) rest := by
        simp [Executor.executeBatchLoop, hs]
      have hffi : firstFailureIdx execOne i (c :: rest) =
          firstFailureIdx execOne (i + 1) rest := by
        simp [firstFailureIdx, hs]
      refine ⟨?_, ?_, ?_⟩
      · intro j hj
        rw [hffi] at hj
        have h1 := (ih (i + 1)).1 j hj
        rw [hloop]
        simp only [List.length_cons]
        omega
      · intro hnone
        rw [hffi] at hnone
        have h1 := (ih (i + 1)).2.1 hnone
        rw [hloop]
        simp [h1]
      · intro k hk
        rw [hloop]
        cases k with
        | zero => simp
        | succ m =>
          rw [hloop] at hk
          simp only [List.length_cons] at hk
          have h1 := (ih (i + 1)).2.2 m (by omega)
          simp only [List.getElem?_cons_succ]
          rw [h1]
          have h2 : i + 1 + m = i + (m + 1) := by omega
          rw [h2]
    · have hloop : Executor.executeBatchLoop execOne true i (c :: rest) =
          [execOne i c] := by
        simp [Executor.executeBatchLoop, hs]
      have hffi : firstFailureIdx execOne i (c :: rest) = some i := by
        simp [firstFailureIdx, hs]
      refine ⟨?_, ?_, ?_⟩
      · intro j hj
        rw [hffi] at hj
        injection hj with hj
        rw [hloop]
        simp
        omega
      · intro hnone
        rw [hffi] at hnone
        exact absurd hnone (by simp)
      · intro k hk
        rw [hloop] at hk ⊢
        simp at hk
        subst hk
        simp

/-- C6: `execute_batch` with `stop_on_error = true` runs the commands
strictly in order: when some command fails, the results list has length
`first failing index + 1`; when none fails it has the full input length;
and the `k`-th result is exactly the execution result of the `k`-th
command — no command after the first failure is attempted. -/
theorem execute_batch_stop_on_error (execOne : Nat → String → ExecutionResult)
    (commands : List String) :
    (∀ j, firstFailureIdx execOne 0 commands = some j →
      (Executor.execute_batch execOne true commands).length = j + 1) ∧
    (firstFailureIdx execOne 0 commands = none →
      (Executor.execute_batch execOne true commands).length = commands.length) ∧
    (∀ k, k < (Executor.execute_batch execOne true commands).length →
      (Executor.execute_batch execOne true commands)[k]? =
        (commands[k]?).map (fun c => execOne k c)) := by
  have h := executeBatchLoop_stop_spec execOne commands 0
  refine ⟨fun j hj => ?_, fun hn => ?_, fun k hk => ?_⟩
  · have h1 := h.1 j hj
    rw [Executor.execute_batch]
    omega
  · rw [Executor.execute_batch]
    exact h.2.1 hn
  · rw [Executor.execute_batch]
    have h1 := h.2.2 k (by rw [Executor.execute_batch] at hk; exact hk)
    simpa using h1

/-- C6 witness: in the batch `["a", "b", "c"]` where exactly `"b"` fails,
two results are returned and the second is the failing result of `"b"`;
`"c"` is never attempted. -/
theorem execute_batch_stop_on_error_witness :
    (Executor.execute_batch c6exec true ["a", "b", "c"]).length = 2 ∧
    (Executor.execute_batch c6exec true ["a", "b", "c"])[1]? = some (c6exec 1 "b") := by
  constructor
  · exact (execute_batch_stop_on_error c6exec ["a", "b", "c"]).1 1 (by decide)
  · rw [(execute_batch_stop_on_error c6exec ["a", "b", "c"]).2.2 1 (by decide)]
    decide

/-- C7: a local attempt that exceeds the per-attempt timeout yields
`success = false` with the timeout error message, and is not retried: the
result of the timed-out attempt `n` is returned immediately with
`retries = n`, regardless of how much retry budget remains. -/
theorem timeout_not_retried (mR t : Nat) (cmd : String) (rof : Bool)
    (oc : Nat → LocalOutcome) (el : Nat → Nat) (n : Nat)
    (hn : n ≤ (if rof = true then mR else 0))
    (hfail : ∀ k, k < n → ∃ o' e' rc, oc k = LocalOutcome.completed o' e' rc ∧ ¬ rc = 0)
    (htime : oc n = LocalOutcome.timedOut) :
    Executor.execute_local mR t cmd rof oc el =
      ⟨false, cmd, "", "", -1, el n, n,
        "Command timed out after " ++ toString t ++ "s"⟩ :=
  executeLocalLoop_timeout mR t cmd rof oc el n hn hfail htime n 0 (by omega) (by omega)

/-- C7 witness: a timeout on the very first attempt with `max_retries = 3`
returns the timeout failure with `retries = 0` — no retry happens. -/
theorem timeout_not_retried_witness :
    Executor.execute_local 3 300 "sleep 1000" true c7worac (fun k => k) =
      ⟨false, "sleep 1000", "", "", -1, 0, 0,
        "Command timed out after " ++ toString 300 ++ "s"⟩ :=
  timeout_not_retried 3 300 "sleep 1000" true c7worac (fun k => k) 0
    (by decide) (fun k hk => absurd hk (by omega)) rfl

/-- Helper: any pending entry left behind by `_execute_commands` is a
fresh one-command fix entry stamped with the current time. -/
lemma executeCommandsPending_shape (execOne : Nat → String → ExecutionResult)
    (suggest_fix : String → String → Option String) (now : Nat) (ctx : String) :
    ∀ (cmds : List String) (i : Nat) (p : PendingConfirmation),
      ClideBot.executeCommandsPending execOne suggest_fix now ctx i cmds = some p →
      (∃ fix, p.commands = [fix]) ∧ p.timestamp = now := by
  intro cmds
  induction cmds with
  | nil =>
    intro i p h
    simp [ClideBot.executeCommandsPending] at h
  | cons c rest ih =>
    intro i p h
    simp only [ClideBot.executeCommandsPending] at h
    by_cases hs : (execOne i c).success = true
    · rw [if_pos hs] at h
      exact ih (i + 1) p h
    · rw [if_neg hs] at h
      rcases hf : suggest_fix c
          (if (execOne i c).stderr = "" then (execOne i c).error_message
           else (execOne i c).stderr) with _ | fix
      · rw [hf] at h
        simp at h
      · rw [hf] at h
        simp only [Option.some.injEq] at h
        subst h
        exact ⟨⟨fix, rfl⟩, rfl⟩

/-- C8: the pending slot is an `Option` (at most one pending entry per
user, by the keyed-dict data model), and `_handle_confirmation`
(a) on an affirmative response (`yes`/`y`/`confirm`/`proceed` after
lower-casing and stripping) replies by executing and consumes the
entry — any entry present afterwards is a fresh one-command fix entry
stamped with the current time, produced by the failure-recovery path of
`_execute_commands`, never the consumed entry kept alive;
(b) on a negative response (`no`/`n`/`cancel`/`abort`) removes the entry
and replies with the cancellation message;
(c) on any other response leaves the entry untouched and only
re-prompts. -/
theorem handle_confirmation_pending (execOne : Nat → String → ExecutionResult)
    (suggest_fix : String → String → Option String) (now : Nat)
    (pending : PendingConfirmation) (response : String) :
    (pyStrip (pyLower response) ∈ AFFIRMATIVE_RESPONSES →
      (ClideBot.handle_confirmation execOne suggest_fix now pending response).2 =
        BotReply.executing ∧
      ∀ p, (ClideBot.handle_confirmation execOne suggest_fix now pending response).1 =
        some p → (∃ fix, p.commands = [fix]) ∧ p.timestamp = now) ∧
    (pyStrip (pyLower response) ∈ NEGATIVE_RESPONSES →
      ClideBot.handle_confirmation execOne suggest_fix now pending response =
        (none, BotReply.cancelled)) ∧
    (pyStrip (pyLower response) ∉ AFFIRMATIVE_RESPONSES →
      pyStrip (pyLower response) ∉ NEGATIVE_RESPONSES →
      ClideBot.handle_confirmation execOne suggest_fix now pending response =
        (some pending, BotReply.reprompt)) := by
  refine ⟨fun ha => ⟨?_, ?_⟩, fun hn => ?_, fun ha hn => ?_⟩
  · simp [ClideBot.handle_confirmation, ha]
  · intro p hp
    simp only [ClideBot.handle_confirmation, if_pos ha] at hp
    exact executeCommandsPending_shape execOne suggest_fix now pending.context
      pending.commands 0 p hp
  · have hna : pyStrip (pyLower response) ∉ AFFIRMATIVE_RESPONSES := by
      intro hmem
      simp [NEGATIVE_RESPONSES] at hn
      rcases hn with h | h | h | h <;> rw [h] at hmem <;> exact absurd hmem (by decide)
    simp [ClideBot.handle_confirmation, hna, hn]
  · simp [ClideBot.handle_confirmation, ha, hn]

/-- C8 witness: with one pending entry, `" YES "` (case-insensitive,
surrounding spaces) triggers execution, `"No"` cancels and empties the
slot, and `"maybe"` re-prompts and leaves the entry unchanged. -/
theorem handle_confirmation_pending_witness :
    (ClideBot.handle_confirmation c8exec c8fix 9 ⟨["ls"], "ctx", 4⟩ " YES ").2 =
      BotReply.executing ∧
    ClideBot.handle_confirmation c8exec c8fix 9 ⟨["ls"], "ctx", 4⟩ "No" =
      (none, BotReply.cancelled) ∧
    ClideBot.handle_confirmation c8exec c8fix 9 ⟨["ls"], "ctx", 4⟩ "maybe" =
      (some ⟨["ls"], "ctx", 4⟩, BotReply.reprompt) :=
  ⟨((handle_confirmation_pending c8exec c8fix 9 ⟨["ls"], "ctx", 4⟩ " YES ").1
      (by decide)).1,
   (handle_confirmation_pending c8exec c8fix 9 ⟨["ls"], "ctx", 4⟩ "No").2.1
      (by decide),
   (handle_confirmation_pending c8exec c8fix 9 ⟨["ls"], "ctx", 4⟩ "maybe").2.2
      (by decide) (by decide)⟩
